import Mathlib

/-!
Verification development for the customer-segmentation dashboard
(src/app.py).  The file shallowly embeds the data model, the
threshold-based segment classifier, the filter step of the update
callback, the synthetic data generator and the error-recovery
skeleton of the callbacks, and proves properties about them.

Numeric cell values (recency, frequency, monetary, average order
value, RFM score) are modelled as rationals: the Python code works
on exact integer draws and on means of finitely many values, and
all thresholds are integers, so rational arithmetic is faithful.
Pandas means over an empty selection yield NaN; every comparison
with NaN is false in Python, which we model by `Option` means where
the `none` case makes every threshold comparison false.
-/

namespace Dashboard

/-- One customer row of the table `rfm`.  The last two fields are the
derived columns added after load (they start out empty on rows coming
from the synthetic generator, which does not create them). -/
structure Row where
  Recency : ℚ
  Frequency : ℚ
  Monetary : ℚ
  AvgOrderValue : ℚ
  RFM_Score : ℚ
  Cluster_KMeans : ℤ
  Cluster_Label : String
  Priority : String
deriving DecidableEq

/-- The segment dropdown value: the string "all" or a cluster id. -/
inductive SegSel where
  | all : SegSel
  | cluster (c : ℤ) : SegSel
deriving DecidableEq

/-- The priority dropdown value: the string "all" or a priority name. -/
inductive PriSel where
  | all : PriSel
  | pri (p : String) : PriSel
deriving DecidableEq

/-- The filter step shared by `upd` (src/app.py lines 256-258) and
`update_all_charts` (lines 1109-1115): an inclusive range predicate on
RFM_Score, then an optional equality filter on Cluster_KMeans when the
segment selector is not "all", then an optional equality filter on
Priority when the priority selector is not "all". -/
def filterStep (table : List Row) (seg : SegSel) (lo hi : ℚ) (pri : PriSel) :
    List Row :=
  let df := table.filter (fun row =>
    decide (lo ≤ row.RFM_Score) && decide (row.RFM_Score ≤ hi))
  let df2 := match seg with
    | SegSel.all => df
    | SegSel.cluster c => df.filter (fun row => row.Cluster_KMeans == c)
  match pri with
  | PriSel.all => df2
  | PriSel.pri p => df2.filter (fun row => row.Priority == p)

/-- A static strategy record of the `strats` dict (src/app.py
lines 28-33 and 529-535). -/
structure StratRec where
  name : String
  grad : String
  color : String
  priority : String
  strategy : String
  tactics : List String
  kpis : List String
  budget : String
  roi : String
deriving DecidableEq

/-- The six-entry `strats` dict, keyed by segment name. -/
def strats : List (String × StratRec) :=
  [("champions",
    { name := "🏆 Champions", grad := "linear-gradient(135deg,#FFD700,#FFA500)",
      color := "#FFD700", priority := "CRITICAL", strategy := "VIP Platinum",
      tactics := ["💎 Exclusive Early Access", "🎁 Premium Gifts", "📞 24/7 Manager",
                  "🌟 VIP Events", "✨ Celebrations"],
      kpis := ["Retention>95%", "Upsell>40%", "Referral>30%"],
      budget := "30%", roi := "500%" }),
   ("loyal",
    { name := "💎 Loyal", grad := "linear-gradient(135deg,#667eea,#764ba2)",
      color := "#667eea", priority := "HIGH", strategy := "Loyalty Boost",
      tactics := ["🎯 Tiered Rewards", "📱 App Benefits", "🎉 Birthday Offers",
                  "💝 Referral Bonus", "🔔 Flash Access"],
      kpis := ["Retention>85%", "Frequency+20%", "NPS>8"],
      budget := "25%", roi := "380%" }),
   ("big",
    { name := "💰 Big Spenders", grad := "linear-gradient(135deg,#f093fb,#f5576c)",
      color := "#f093fb", priority := "CRITICAL", strategy := "Value Max",
      tactics := ["💳 Flex Terms", "🎁 Luxury Gifts", "🚚 Free Express",
                  "📦 Custom Bundles", "🌟 Concierge"],
      kpis := ["AOV+15%", "Retention>90%", "Sat>4.8/5"],
      budget := "20%", roi := "420%" }),
   ("dormant",
    { name := "😴 Dormant", grad := "linear-gradient(135deg,#ff6b6b,#ee5a6f)",
      color := "#ff6b6b", priority := "URGENT", strategy := "Win-Back",
      tactics := ["🎁 25-30% Off", "📧 Multi-Channel", "🎯 Retargeting",
                  "💬 Personal Call", "⏰ Urgency"],
      kpis := ["Winback>25%", "Response>15%", "ROI>200%"],
      budget := "15%", roi := "250%" }),
   ("potential",
    { name := "🌱 Potential", grad := "linear-gradient(135deg,#11998e,#38ef7d)",
      color := "#11998e", priority := "MEDIUM", strategy := "Fast Convert",
      tactics := ["🎓 Education", "🎁 15% 2nd Buy", "💌 Welcome Flow",
                  "📚 Tutorials", "🎯 Cross-Sell"],
      kpis := ["Convert>35%", "2nd<30d", "LTV+25%"],
      budget := "5%", roi := "180%" }),
   ("standard",
    { name := "📊 Standard", grad := "linear-gradient(135deg,#89f7fe,#66a6ff)",
      color := "#89f7fe", priority := "MEDIUM", strategy := "Steady Engage",
      tactics := ["📧 Newsletters", "🎯 Seasonal", "💌 AI Recs",
                  "🎁 Surprises", "📱 Community"],
      kpis := ["Engage>40%", "Stable", "Sat>3.5/5"],
      budget := "5%", roi := "150%" })]

/-- Mean of a list of rationals, modelling `Series.mean()`: on an empty
selection pandas returns NaN, modelled as `none`. -/
def omean (l : List ℚ) : Option ℚ :=
  if l.isEmpty then none else some (l.sum / l.length)

/-- Comparison `x < c` where `x` may be NaN: any comparison with NaN is
false in Python. -/
def oLt (x : Option ℚ) (c : ℚ) : Bool :=
  match x with
  | none => false
  | some v => decide (v < c)

/-- Comparison `x > c` where `x` may be NaN. -/
def oGt (x : Option ℚ) (c : ℚ) : Bool :=
  match x with
  | none => false
  | some v => decide (v > c)

/-- The branch structure of `get_strat` (src/app.py lines 44-53 and
546-566) on already-computed per-cluster means: the ordered threshold
rules, first match wins. -/
def get_strat_agg (r f m : ℚ) : String :=
  if r < 50 ∧ f > 10 ∧ m > 1000 then "champions"
  else if r < 50 ∧ f > 5 then "loyal"
  else if m > 1500 then "big"
  else if r > 100 then "dormant"
  else if r < 50 ∧ f < 5 then "potential"
  else "standard"

/-- The key into `strats` selected by `get_strat cid data`
(src/app.py lines 546-566): restrict the table to the rows of the
cluster, take the three column means (NaN when the cluster is empty)
and run the threshold chain, where comparisons with NaN are false. -/
def get_strat_key (cid : ℤ) (data : List Row) : String :=
  let cd := data.filter (fun row => row.Cluster_KMeans == cid)
  let r := omean (cd.map Row.Recency)
  let f := omean (cd.map Row.Frequency)
  let m := omean (cd.map Row.Monetary)
  if oLt r 50 && oGt f 10 && oGt m 1000 then "champions"
  else if oLt r 50 && oGt f 5 then "loyal"
  else if oGt m 1500 then "big"
  else if oGt r 100 then "dormant"
  else if oLt r 50 && oLt f 5 then "potential"
  else "standard"

/-- `get_strat` returns the looked-up strategy record together with the
cluster id, modelling the merged dict the Python function returns. -/
def get_strat (cid : ℤ) (data : List Row) : Option StratRec × ℤ :=
  (strats.lookup (get_strat_key cid data), cid)

/-- The ordered, overlapping rule list of the classifier, written as
data so that first-match-wins is explicit: this is the specification
side of the refinement stated for the classifier. -/
def strat_rules : List ((ℚ → ℚ → ℚ → Bool) × String) :=
  [(fun r f m => decide (r < 50) && decide (f > 10) && decide (m > 1000), "champions"),
   (fun r f _ => decide (r < 50) && decide (f > 5), "loyal"),
   (fun _ _ m => decide (m > 1500), "big"),
   (fun r _ _ => decide (r > 100), "dormant"),
   (fun r f _ => decide (r < 50) && decide (f < 5), "potential")]

/-- First-match-wins evaluation of the rule list, defaulting to
"standard". -/
def first_match (r f m : ℚ) : String :=
  match strat_rules.find? (fun p => p.1 r f m) with
  | some p => p.2
  | none => "standard"

/-- The random draws that `create_enhanced_data` (src/app.py lines
478-518) makes for one customer: the six base columns plus the
per-cluster override draws used by the `np.where` enhancement steps.
Each field stands for the value the corresponding `np.random.randint`
call produced at this position of the table. -/
structure SynthDraws where
  recency : ℤ
  frequency : ℤ
  monetary : ℤ
  avg_order_value : ℤ
  rfm_score : ℤ
  cluster : ℤ
  champ_recency : ℤ
  champ_frequency : ℤ
  champ_monetary : ℤ
  big_monetary : ℤ
  big_avg_order_value : ℤ
  freq6 : ℤ
  dorm_recency : ℤ
  dorm_frequency : ℤ
deriving DecidableEq

/-- The ranges of the `np.random.randint` calls in
`create_enhanced_data`: base columns lines 486-493, cluster-1
(champions) overrides lines 496-500, cluster-3 (big spender) overrides
lines 502-505, cluster-6 override line 507-509, cluster-0 (dormant)
overrides lines 511-514, and the cluster id is drawn from 0..6. -/
def SynthDraws.valid (d : SynthDraws) : Prop :=
  1 ≤ d.recency ∧ d.recency < 365 ∧
  1 ≤ d.frequency ∧ d.frequency < 50 ∧
  100 ≤ d.monetary ∧ d.monetary < 10000 ∧
  50 ≤ d.avg_order_value ∧ d.avg_order_value < 500 ∧
  1 ≤ d.rfm_score ∧ d.rfm_score < 10 ∧
  0 ≤ d.cluster ∧ d.cluster ≤ 6 ∧
  1 ≤ d.champ_recency ∧ d.champ_recency < 30 ∧
  15 ≤ d.champ_frequency ∧ d.champ_frequency < 50 ∧
  5000 ≤ d.champ_monetary ∧ d.champ_monetary < 30000 ∧
  10000 ≤ d.big_monetary ∧ d.big_monetary < 50000 ∧
  1000 ≤ d.big_avg_order_value ∧ d.big_avg_order_value < 5000 ∧
  30 ≤ d.freq6 ∧ d.freq6 < 100 ∧
  200 ≤ d.dorm_recency ∧ d.dorm_recency < 365 ∧
  1 ≤ d.dorm_frequency ∧ d.dorm_frequency < 5

instance (d : SynthDraws) : Decidable d.valid := by
  unfold SynthDraws.valid; infer_instance

/-- One row of the table `create_enhanced_data` builds: the base draws,
then the four `np.where` override passes applied in source order
(cluster 1: recency, frequency, monetary; cluster 3: monetary and
average order value; cluster 6: frequency; cluster 0: recency and
frequency).  The two derived label columns do not exist yet and are
modelled as empty strings. -/
def create_enhanced_data_row (d : SynthDraws) : Row :=
  let r1 : ℤ := if d.cluster = 1 then d.champ_recency else d.recency
  let f1 : ℤ := if d.cluster = 1 then d.champ_frequency else d.frequency
  let m1 : ℤ := if d.cluster = 1 then d.champ_monetary else d.monetary
  let m2 : ℤ := if d.cluster = 3 then d.big_monetary else m1
  let a1 : ℤ := if d.cluster = 3 then d.big_avg_order_value else d.avg_order_value
  let f2 : ℤ := if d.cluster = 6 then d.freq6 else f1
  let r2 : ℤ := if d.cluster = 0 then d.dorm_recency else r1
  let f3 : ℤ := if d.cluster = 0 then d.dorm_frequency else f2
  { Recency := (r2 : ℚ), Frequency := (f3 : ℚ), Monetary := (m2 : ℚ),
    AvgOrderValue := (a1 : ℚ), RFM_Score := (d.rfm_score : ℚ),
    Cluster_KMeans := d.cluster, Cluster_Label := "", Priority := "" }

/-- `create_enhanced_data` builds a table of exactly n = 3680 rows from
the stream of random draws. -/
def create_enhanced_data (g : ℕ → SynthDraws) : List Row :=
  (List.range 3680).map (fun i => create_enhanced_data_row (g i))

/-- The possible outcomes of looking for the source CSV file. -/
inductive LoadSource where
  | absent : LoadSource
  | unreadable : LoadSource
  | readable (rows : List Row) : LoadSource

/-- Modelled from the spec: the opening of `load_data` (the existence
check and CSV parse) is missing from src/app.py, which is truncated
mid-function at line 452; only the tail of the function is present
(lines 452-476): the handler that logs a read error and falls through,
the branch that logs that the CSV was not found, and the final
`return create_enhanced_data()`.  Per the spec, load failures are
non-fatal and always fall through to synthetic data, while a readable
file yields the parsed rows. -/
def load_data (src : LoadSource) (g : ℕ → SynthDraws) : List Row :=
  match src with
  | LoadSource.readable rows => rows
  | LoadSource.absent => create_enhanced_data g
  | LoadSource.unreadable => create_enhanced_data g

/-- Distinct values of a list of labels in order of first appearance,
the grouping step behind `value_counts` and `groupby`. -/
def uniqueLabels (l : List String) : List String :=
  l.foldl (fun acc x => if x ∈ acc then acc else acc ++ [x]) []

/-- Stable insertion (descending by count) used to model the
descending sort of `value_counts`. -/
def insertDescByCount (p : String × ℕ) :
    List (String × ℕ) → List (String × ℕ)
  | [] => [p]
  | q :: qs => if q.2 < p.2 then p :: q :: qs else q :: insertDescByCount p qs

/-- `Series.value_counts()`: occurrence counts of each distinct label,
sorted by count descending (stable on ties). -/
def value_counts (l : List String) : List (String × ℕ) :=
  ((uniqueLabels l).map (fun x => (x, l.count x))).foldr insertDescByCount []

/-- Stable insertion (ascending by value) used to model
`sort_values()` on the grouped sums. -/
def insertAscByVal (p : String × ℚ) :
    List (String × ℚ) → List (String × ℚ)
  | [] => [p]
  | q :: qs => if p.2 < q.2 then p :: q :: qs else q :: insertAscByVal p qs

/-- `df.groupby(label)[col].sum()`: per-label sums of a projected
column, labels in order of first appearance. -/
def groupby_sum (df : List Row) (proj : Row → ℚ) : List (String × ℚ) :=
  (uniqueLabels (df.map Row.Cluster_Label)).map (fun lb =>
    (lb, ((df.filter (fun row => row.Cluster_Label == lb)).map proj).sum))

/-- `Series.idxmax()`: the label of the maximal value, raising on an
empty series (modelled by `Except.error`). -/
def idxmax : List (String × ℚ) → Except String String
  | [] => Except.error "attempt to get argmax of an empty sequence"
  | p :: ps =>
    Except.ok (ps.foldl (fun best q => if best.2 < q.2 then q else best) p).1

/-- One output slot of the main callback: a chart figure or one of the
text panels, abstracted to the data it is built from.  `noDataFig` and
`noDataMsg` are the placeholders of the empty-filter branch
(src/app.py lines 1120-1133), `errorMsg` the panel of the exception
handler (lines 1361-1364). -/
inductive Slot where
  | noDataFig : Slot
  | noDataMsg : Slot
  | errorMsg : Slot
  | pieF (labels : List String) (values : List ℕ) (total : ℕ) : Slot
  | barF (groups : List (String × ℚ)) : Slot
  | scatterF (sampleSize : ℕ) : Slot
  | histF (col : String) (vals : List ℚ) : Slot
  | tableF (labels : List String) (counts : List ℕ) : Slot
  | champF (clusters : List ℤ) : Slot
  | stratF (cards : ℕ) : Slot
  | insightsF (topRevenueSegment largestSegment : String) : Slot
deriving DecidableEq

/-- The pie builder (lines 1136-1152): value counts of the labels plus
the row total shown in the centre annotation. -/
def build_pie (df : List Row) : Except String Slot :=
  let cc := value_counts (df.map Row.Cluster_Label)
  Except.ok (Slot.pieF (cc.map Prod.fst) (cc.map Prod.snd) df.length)

/-- The revenue bar builder (lines 1155-1166): per-label monetary sums
sorted ascending. -/
def build_bar (df : List Row) : Except String Slot :=
  Except.ok (Slot.barF ((groupby_sum df Row.Monetary).foldr insertAscByVal []))

/-- The 3D scatter builder (lines 1169-1189): it draws a random sample
of min(500, len(df)) values of each column; only the sample size is
tracked here, the sampled values being nondeterministic. -/
def build_scatter (df : List Row) : Except String Slot :=
  Except.ok (Slot.scatterF (min 500 df.length))

/-- A histogram builder (lines 1192-1204): the projected column. -/
def build_hist (col : String) (proj : Row → ℚ) (df : List Row) :
    Except String Slot :=
  Except.ok (Slot.histF col (df.map proj))

/-- The summary-table builder (lines 1211-1245), abstracted to the
group labels and group sizes. -/
def build_table (df : List Row) : Except String Slot :=
  let labels := uniqueLabels (df.map Row.Cluster_Label)
  Except.ok (Slot.tableF labels
    (labels.map (fun lb => (df.filter (fun row => row.Cluster_Label == lb)).length)))

/-- The champion-breakdown builder (lines 1248-1271), abstracted to
the distinct cluster ids present in the filtered table. -/
def build_champ (df : List Row) : Except String Slot :=
  Except.ok (Slot.champF ((df.map Row.Cluster_KMeans).foldl
    (fun acc c => if c ∈ acc then acc else acc ++ [c]) []))

/-- The strategy-cards builder (lines 1274-1311), abstracted to the
number of cards, one per profiled cluster that passes the segment
filter and has customers left. -/
def build_strat (df : List Row) : Except String Slot :=
  Except.ok (Slot.stratF ((df.map Row.Cluster_KMeans).foldl
    (fun acc c => if c ∈ acc then acc else acc ++ [c]) []).length)

/-- The insights builder (lines 1314-1344): it calls `idxmax` on the
grouped monetary sums and on the value counts, both of which raise on
an empty table. -/
def build_insights (df : List Row) : Except String Slot := do
  let top ← idxmax (groupby_sum df Row.Monetary)
  let largest ← idxmax ((value_counts (df.map Row.Cluster_Label)).map
    (fun p => (p.1, (p.2 : ℚ))))
  Except.ok (Slot.insightsF top largest)

/-- Sequencing of the builder calls inside the single `try` block of
`update_all_charts`: the first raised exception aborts the whole body
(there is no per-builder handler in the source). -/
def seqBuilders : List (Except String Slot) → Except String (List Slot)
  | [] => Except.ok []
  | b :: bs =>
    match b with
    | Except.error e => Except.error e
    | Except.ok s =>
      match seqBuilders bs with
      | Except.error e => Except.error e
      | Except.ok ss => Except.ok (s :: ss)

/-- The `except` clause of `update_all_charts` (lines 1356-1366): a
successful body returns its ten outputs; any exception replaces all
ten outputs with the cached initial figures plus three error panels. -/
def recover_outputs (body : Except String (List Slot))
    (initial : List Slot) : List Slot :=
  match body with
  | Except.ok out => out
  | Except.error _ => initial ++ [Slot.errorMsg, Slot.errorMsg, Slot.errorMsg]

/-- The `try` body of `update_all_charts` (lines 1102-1354): filter,
then either the ten no-data placeholders when the filtered table is
empty (lines 1120-1133, seven placeholder figures and three no-data
messages, no aggregation is reached), or the ten built outputs. -/
def update_all_charts_body (table : List Row) (seg : SegSel) (lo hi : ℚ)
    (pri : PriSel) : Except String (List Slot) :=
  let df := filterStep table seg lo hi pri
  if df.isEmpty then
    Except.ok (List.replicate 7 Slot.noDataFig ++ List.replicate 3 Slot.noDataMsg)
  else
    seqBuilders [build_pie df, build_bar df, build_scatter df,
      build_hist "Recency" Row.Recency df,
      build_hist "Frequency" Row.Frequency df,
      build_hist "Monetary" Row.Monetary df,
      build_table df, build_champ df, build_strat df, build_insights df]

/-- The whole main callback `update_all_charts` (lines 1100-1366):
the body under its exception handler. -/
def update_all_charts (table : List Row) (seg : SegSel) (lo hi : ℚ)
    (pri : PriSel) (initial : List Slot) : List Slot :=
  recover_outputs (update_all_charts_body table seg lo hi pri) initial

/-- The data subset used by the standalone pie callback
`update_pie_chart` (lines 1046-1076): the whole table for the segment
value "all", otherwise the rows of the selected cluster.  No score or
priority filtering occurs. -/
def pie_data (table : List Row) (seg : SegSel) : List Row :=
  match seg with
  | SegSel.all => table
  | SegSel.cluster c => table.filter (fun row => row.Cluster_KMeans == c)

/-- The figure `update_pie_chart` produces from its subset. -/
def update_pie_chart (table : List Row) (seg : SegSel) : Slot :=
  let data := pie_data table seg
  let cc := value_counts (data.map Row.Cluster_Label)
  Slot.pieF (cc.map Prod.fst) (cc.map Prod.snd) data.length

/-- The output of chart g1 as a function of the full control state
(segment, score range, priority): the owning callback registers only
the segment dropdown as input (src/app.py lines 1042-1045), so the
other two controls do not reach it. -/
def g1_output (table : List Row) (seg : SegSel) (_lo _hi : ℚ)
    (_pri : PriSel) : Slot :=
  update_pie_chart table seg

/-- Minimum of a list of rationals, modelling `Series.min()` (NaN,
here `none`, on an empty column). -/
def omin : List ℚ → Option ℚ
  | [] => none
  | x :: xs =>
    match omin xs with
    | none => some x
    | some y => some (min x y)

/-- Maximum of a list of rationals, modelling `Series.max()`. -/
def omax : List ℚ → Option ℚ
  | [] => none
  | x :: xs =>
    match omax xs with
    | none => some x
    | some y => some (max x y)

/-- A concrete customer row used to instantiate the universally
quantified theorems below. -/
def rowW : Row :=
  { Recency := 10, Frequency := 2, Monetary := 300, AvgOrderValue := 150,
    RFM_Score := 5, Cluster_KMeans := 0,
    Cluster_Label := "😴  Dormant (C0)", Priority := "URGENT" }

/-- A concrete draw record for the synthetic generator: a cluster-2 row
whose independent average-order-value draw (50) differs from
monetary / max(frequency, 1) = 100 / 1. -/
def synthCex : SynthDraws :=
  { recency := 1, frequency := 1, monetary := 100, avg_order_value := 50,
    rfm_score := 1, cluster := 2, champ_recency := 1, champ_frequency := 15,
    champ_monetary := 5000, big_monetary := 10000,
    big_avg_order_value := 1000, freq6 := 30, dorm_recency := 200,
    dorm_frequency := 1 }

/-- A concrete draw stream for the synthetic generator. -/
def gDraws : ℕ → SynthDraws := fun _ =>
  { recency := 100, frequency := 4, monetary := 900, avg_order_value := 60,
    rfm_score := 3, cluster := 5, champ_recency := 2, champ_frequency := 20,
    champ_monetary := 6000, big_monetary := 11000,
    big_avg_order_value := 2000, freq6 := 40, dorm_recency := 300,
    dorm_frequency := 2 }

/-- A run of the ten builder calls in which every builder succeeds. -/
def builderRunOk : List (Except String Slot) :=
  (List.range 10).map (fun i => Except.ok (Slot.stratF (i + 1)))

/-- The same run except that the second builder (the revenue bar)
raises. -/
def builderRunErr : List (Except String Slot) :=
  (List.range 10).map (fun i =>
    if i = 1 then Except.error "bar builder raised"
    else Except.ok (Slot.stratF (i + 1)))

/-- A concrete list of cached initial figures, all distinct from the
slots of `builderRunOk`. -/
def initialSlots : List Slot :=
  (List.range 7).map (fun i => Slot.stratF (100 + i))

/-! ## Helper lemmas -/

/-- `omin` of a nonempty list bounds every element from below. -/
theorem omin_le {l : List ℚ} {m : ℚ} (h : omin l = some m) :
    ∀ x ∈ l, m ≤ x := by
  induction l generalizing m with
  | nil => simp [omin] at h
  | cons a l ih =>
    intro x hx
    rcases List.mem_cons.mp hx with rfl | hx2
    · cases hl : omin l with
      | none => simp [omin, hl] at h; subst h; exact le_refl _
      | some y => simp [omin, hl] at h; subst h; exact min_le_left _ _
    · cases hl : omin l with
      | none =>
        have : l = [] := by
          cases l with
          | nil => rfl
          | cons b t => simp [omin] at hl; cases hbt : omin t <;> simp [hbt] at hl
        subst this; simp at hx2
      | some y =>
        simp [omin, hl] at h
        subst h
        exact le_trans (min_le_right _ _) (ih hl x hx2)

/-- `omax` of a nonempty list bounds every element from above. -/
theorem omax_ge {l : List ℚ} {m : ℚ} (h : omax l = some m) :
    ∀ x ∈ l, x ≤ m := by
  induction l generalizing m with
  | nil => simp [omax] at h
  | cons a l ih =>
    intro x hx
    rcases List.mem_cons.mp hx with rfl | hx2
    · cases hl : omax l with
      | none => simp [omax, hl] at h; subst h; exact le_refl _
      | some y => simp [omax, hl] at h; subst h; exact le_max_left _ _
    · cases hl : omax l with
      | none =>
        have : l = [] := by
          cases l with
          | nil => rfl
          | cons b t => simp [omax] at hl; cases hbt : omax t <;> simp [hbt] at hl
        subst this; simp at hx2
      | some y =>
        simp [omax, hl] at h
        subst h
        exact le_trans (ih hl x hx2) (le_max_right _ _)

/-- If any builder in the sequenced list raised, the whole `try` body
raises. -/
theorem seqBuilders_error :
    ∀ {bs : List (Except String Slot)} {e : String},
      Except.error e ∈ bs → ∃ e2, seqBuilders bs = Except.error e2 := by
  intro bs
  induction bs with
  | nil => intro e he; simp at he
  | cons b bs ih =>
    intro e he
    rcases List.mem_cons.mp he with heq | hbs
    · rw [← heq]; exact ⟨e, rfl⟩
    · cases b with
      | error e3 => exact ⟨e3, rfl⟩
      | ok s =>
        obtain ⟨e2, h2⟩ := ih hbs
        exact ⟨e2, by simp [seqBuilders, h2]⟩

/-! ## Claims -/

/-- C1.  The classifier on per-cluster means returns the first matching
rule of the ordered, overlapping rule list (champions, loyal, big,
dormant, potential, default standard); in particular an aggregate
satisfying both the champions condition and the big-spenders condition
m > 1500 resolves to champions, because champions is checked first. -/
theorem get_strat_first_match_order :
    (∀ r f m : ℚ, get_strat_agg r f m = first_match r f m) ∧
    (∀ r f m : ℚ, r < 50 → f > 10 → m > 1000 → m > 1500 →
      get_strat_agg r f m = "champions") := by
  constructor
  · intro r f m
    simp only [get_strat_agg, first_match, strat_rules, List.find?]
    by_cases h1 : r < 50 <;> by_cases h2 : f > 10 <;> by_cases h3 : m > 1000 <;>
      by_cases h4 : f > 5 <;> by_cases h5 : m > 1500 <;> by_cases h6 : r > 100 <;>
      by_cases h7 : f < 5 <;>
      simp [h1, h2, h3, h4, h5, h6, h7]
  · intro r f m h1 h2 h3 _
    simp [get_strat_agg, h1, h2, h3]

/-- Witness for C1: a concrete aggregate satisfying every hypothesis of
the overlap statement classifies as champions. -/
theorem get_strat_first_match_order_witness :
    get_strat_agg 20 15 2000 = "champions" :=
  get_strat_first_match_order.2 20 15 2000 (by norm_num) (by norm_num)
    (by norm_num) (by norm_num)

/-- C3.  The classifier maps the aggregate (10, 20, 5000) to champions
and the aggregate (150, 2, 300) to dormant. -/
theorem get_strat_examples :
    get_strat_agg 10 20 5000 = "champions" ∧
    get_strat_agg 150 2 300 = "dormant" := by
  constructor <;> norm_num [get_strat_agg]

/-- C6.  A cluster id with no rows yields NaN means, every threshold
comparison on NaN is false, and the classifier falls through to
standard; moreover the classifier always lands in the six-entry
strategy table, whose keys are distinct, so every cluster id maps to
exactly one strategy record. -/
theorem get_strat_total :
    (∀ (cid : ℤ) (data : List Row),
        data.filter (fun row => row.Cluster_KMeans == cid) = [] →
        get_strat_key cid data = "standard") ∧
    (∀ (cid : ℤ) (data : List Row),
        get_strat_key cid data ∈
          ["champions", "loyal", "big", "dormant", "potential", "standard"]) ∧
    (strats.map Prod.fst).Nodup := by
  refine ⟨?_, ?_, ?_⟩
  · intro cid data h
    simp only [get_strat_key, h]
    simp [omean, oLt, oGt]
  · intro cid data
    simp only [get_strat_key]
    split_ifs <;> simp
  · simp [strats]

/-- Witness for C6: the empty table has no rows of cluster 5, and the
classifier returns standard there. -/
theorem get_strat_total_witness :
    List.filter (fun row => row.Cluster_KMeans == (5 : ℤ)) ([] : List Row) = [] ∧
    get_strat_key 5 [] = "standard" :=
  ⟨rfl, get_strat_total.1 5 [] rfl⟩

/-- C2.  The filter step returns a sublist of the full table (so a
subset with unmodified rows) in which every row satisfies the inclusive
score range, the cluster equality when a segment is selected, and the
priority equality when a priority is selected. -/
theorem filterStep_subset :
    ∀ (table : List Row) (seg : SegSel) (lo hi : ℚ) (pri : PriSel),
      List.Sublist (filterStep table seg lo hi pri) table ∧
      ∀ row ∈ filterStep table seg lo hi pri,
        (lo ≤ row.RFM_Score ∧ row.RFM_Score ≤ hi) ∧
        (∀ c : ℤ, seg = SegSel.cluster c → row.Cluster_KMeans = c) ∧
        (∀ p : String, pri = PriSel.pri p → row.Priority = p) := by
  intro table seg lo hi pri
  constructor
  · cases seg <;> cases pri <;> simp only [filterStep] <;>
      first
        | exact List.filter_sublist _
        | exact (List.filter_sublist _).trans (List.filter_sublist _)
        | exact ((List.filter_sublist _).trans (List.filter_sublist _)).trans
            (List.filter_sublist _)
  · intro row hrow
    have hscore : lo ≤ row.RFM_Score ∧ row.RFM_Score ≤ hi := by
      cases seg <;> cases pri <;>
        simp only [filterStep, List.mem_filter, Bool.and_eq_true,
          decide_eq_true_eq, beq_iff_eq] at hrow <;> tauto
    have hclu : ∀ c : ℤ, seg = SegSel.cluster c → row.Cluster_KMeans = c := by
      intro c hc
      subst hc
      cases pri <;>
        simp only [filterStep, List.mem_filter, Bool.and_eq_true,
          decide_eq_true_eq, beq_iff_eq] at hrow <;> tauto
    have hpri : ∀ p : String, pri = PriSel.pri p → row.Priority = p := by
      intro p hp
      subst hp
      cases seg <;>
        simp only [filterStep, List.mem_filter, Bool.and_eq_true,
          decide_eq_true_eq, beq_iff_eq] at hrow <;> tauto
    exact ⟨hscore, hclu, hpri⟩

/-- Witness for C2: a concrete row surviving a concrete filter
satisfies all three predicates. -/
theorem filterStep_subset_witness :
    List.Sublist (filterStep [rowW] (SegSel.cluster 0) 1 9 (PriSel.pri "URGENT"))
      [rowW] ∧
    (((1 : ℚ) ≤ rowW.RFM_Score ∧ rowW.RFM_Score ≤ 9) ∧
      (∀ c : ℤ, SegSel.cluster 0 = SegSel.cluster c → rowW.Cluster_KMeans = c) ∧
      (∀ p : String, PriSel.pri "URGENT" = PriSel.pri p → rowW.Priority = p)) :=
  ⟨(filterStep_subset [rowW] (SegSel.cluster 0) 1 9 (PriSel.pri "URGENT")).1,
   (filterStep_subset [rowW] (SegSel.cluster 0) 1 9 (PriSel.pri "URGENT")).2
     rowW (by decide)⟩

/-- C10.  Filtering with both selectors at "all" and the score range at
exactly the minimum and maximum score of the table returns the table
unchanged, rows in their original order. -/
theorem filterStep_identity :
    ∀ (table : List Row) (mn mx : ℚ),
      omin (table.map Row.RFM_Score) = some mn →
      omax (table.map Row.RFM_Score) = some mx →
      filterStep table SegSel.all mn mx PriSel.all = table := by
  intro table mn mx hmn hmx
  simp only [filterStep]
  rw [List.filter_eq_self]
  intro row hrow
  simp only [Bool.and_eq_true, decide_eq_true_eq]
  exact ⟨omin_le hmn _ (List.mem_map_of_mem _ hrow),
    omax_ge hmx _ (List.mem_map_of_mem _ hrow)⟩

/-- Witness for C10: a one-row table is returned unchanged when
filtering with its own score bounds. -/
theorem filterStep_identity_witness :
    omin ([rowW].map Row.RFM_Score) = some 5 ∧
    omax ([rowW].map Row.RFM_Score) = some 5 ∧
    filterStep [rowW] SegSel.all 5 5 PriSel.all = [rowW] :=
  ⟨by decide, by decide, filterStep_identity [rowW] 5 5 (by decide) (by decide)⟩

/-- C4.  When the filtered table is empty, the main callback returns
seven no-data placeholder figures and three no-data messages: the
empty check precedes every aggregation, so no builder (and so no
groupby, idxmax or mean) runs and no exception escapes. -/
theorem update_all_charts_empty :
    ∀ (table : List Row) (seg : SegSel) (lo hi : ℚ) (pri : PriSel)
      (initial : List Slot),
      filterStep table seg lo hi pri = [] →
      update_all_charts table seg lo hi pri initial =
        List.replicate 7 Slot.noDataFig ++ List.replicate 3 Slot.noDataMsg := by
  intro table seg lo hi pri initial h
  simp [update_all_charts, update_all_charts_body, h, recover_outputs]

/-- Witness for C4: a concrete filter combination with an empty result
(the range [1, 0] excludes the only row) yields the ten placeholders. -/
theorem update_all_charts_empty_witness :
    filterStep [rowW] SegSel.all 1 0 PriSel.all = [] ∧
    update_all_charts [rowW] SegSel.all 1 0 PriSel.all initialSlots =
      List.replicate 7 Slot.noDataFig ++ List.replicate 3 Slot.noDataMsg :=
  ⟨by decide,
   update_all_charts_empty [rowW] SegSel.all 1 0 PriSel.all initialSlots
     (by decide)⟩

/-- C5, counterexample.  The synthetic-data path draws the average
order value independently at random (50 to 499, overridden to 1000 to
4999 for cluster 3), so a reachable row — base draws recency 1,
frequency 1, monetary 100, average order value 50, cluster 2 — has
AvgOrderValue 50 while Monetary / max(Frequency, 1) = 100: the claimed
identity fails on the synthetic path. -/
theorem create_enhanced_data_aov_cex :
    synthCex.valid ∧
    ¬ ((create_enhanced_data_row synthCex).AvgOrderValue =
        (create_enhanced_data_row synthCex).Monetary /
          max (create_enhanced_data_row synthCex).Frequency 1) := by
  constructor
  · decide
  · intro h
    norm_num [create_enhanced_data_row, synthCex] at h

/-- C5, amended.  The synthetic path sets AvgOrderValue to its own
independent draw: within 50 to 499 for every cluster other than 3, and
within 1000 to 4999 for cluster 3; it is not derived from Monetary and
Frequency. -/
theorem create_enhanced_data_aov_range :
    ∀ d : SynthDraws, d.valid →
      (if d.cluster = 3
        then (1000 : ℚ) ≤ (create_enhanced_data_row d).AvgOrderValue ∧
             (create_enhanced_data_row d).AvgOrderValue < 5000
        else (50 : ℚ) ≤ (create_enhanced_data_row d).AvgOrderValue ∧
             (create_enhanced_data_row d).AvgOrderValue < 500) := by
  intro d hd
  obtain ⟨-, -, -, -, -, -, h7, h8, -, -, -, -, -, -, -, -, -, -, -, -,
    h21, h22, -, -, -, -, -, -⟩ := hd
  have haov : (create_enhanced_data_row d).AvgOrderValue =
      (((if d.cluster = 3 then d.big_avg_order_value else d.avg_order_value) :
        ℤ) : ℚ) := rfl
  by_cases h3 : d.cluster = 3
  · rw [if_pos h3, haov, if_pos h3]
    constructor
    · exact_mod_cast h21
    · exact_mod_cast h22
  · rw [if_neg h3, haov, if_neg h3]
    constructor
    · exact_mod_cast h7
    · exact_mod_cast h8

/-- Witness for C5 amended: the concrete cluster-2 draw has its
average order value inside 50 to 499. -/
theorem create_enhanced_data_aov_range_witness :
    synthCex.valid ∧
    (if synthCex.cluster = 3
      then (1000 : ℚ) ≤ (create_enhanced_data_row synthCex).AvgOrderValue ∧
           (create_enhanced_data_row synthCex).AvgOrderValue < 5000
      else (50 : ℚ) ≤ (create_enhanced_data_row synthCex).AvgOrderValue ∧
           (create_enhanced_data_row synthCex).AvgOrderValue < 500) :=
  ⟨by decide, create_enhanced_data_aov_range synthCex (by decide)⟩

/-- C7, counterexample.  The main callback wraps its whole body in a
single exception handler, not one per chart: in a run where only the
second builder raises, the first output slot changes too (it becomes
the cached initial figure instead of the successfully built first
chart), so a failure in one chart does not leave the other charts
unaffected. -/
theorem per_chart_isolation_cex :
    (recover_outputs (seqBuilders builderRunErr) initialSlots).head? ≠
    (recover_outputs (seqBuilders builderRunOk) initialSlots).head? := by
  decide

/-- C7, amended.  Recovery happens at callback granularity: an
exception raised by any one builder makes the whole body raise, and
the handler then replaces all ten outputs with the cached initial
figures plus three error panels. -/
theorem callback_granularity_recovery :
    ∀ (bs : List (Except String Slot)) (initial : List Slot),
      (∃ e, Except.error e ∈ bs) →
      recover_outputs (seqBuilders bs) initial =
        initial ++ [Slot.errorMsg, Slot.errorMsg, Slot.errorMsg] := by
  intro bs initial h
  obtain ⟨e, he⟩ := h
  obtain ⟨e2, h2⟩ := seqBuilders_error he
  simp [recover_outputs, h2]

/-- Witness for C7 amended: in the concrete run where the second
builder raises, every output is replaced by the fallback. -/
theorem callback_granularity_recovery_witness :
    (∃ e, Except.error e ∈ builderRunErr) ∧
    recover_outputs (seqBuilders builderRunErr) initialSlots =
      initialSlots ++ [Slot.errorMsg, Slot.errorMsg, Slot.errorMsg] := by
  have hm : Except.error "bar builder raised" ∈ builderRunErr := by
    simp only [builderRunErr, List.mem_map]
    exact ⟨1, by simp, rfl⟩
  exact ⟨⟨"bar builder raised", hm⟩,
    callback_granularity_recovery builderRunErr initialSlots
      ⟨"bar builder raised", hm⟩⟩

/-- C8.  When the source file is absent or unreadable, the loader does
not fail: it returns the synthetic table of exactly 3680 rows, hence a
non-empty customer table. -/
theorem load_data_fallback :
    ∀ (src : LoadSource) (g : ℕ → SynthDraws),
      (src = LoadSource.absent ∨ src = LoadSource.unreadable) →
      (load_data src g).length = 3680 ∧ load_data src g ≠ [] := by
  intro src g h
  rcases h with rfl | rfl <;>
    exact ⟨by simp [load_data, create_enhanced_data],
      by simp [load_data, create_enhanced_data]⟩

/-- Witness for C8: a concrete absent-file load returns 3680 synthetic
rows. -/
theorem load_data_fallback_witness :
    (LoadSource.absent = LoadSource.absent ∨
      LoadSource.absent = LoadSource.unreadable) ∧
    ((load_data LoadSource.absent gDraws).length = 3680 ∧
      load_data LoadSource.absent gDraws ≠ []) :=
  ⟨Or.inl rfl, load_data_fallback LoadSource.absent gDraws (Or.inl rfl)⟩

/-- C9.  The standalone pie callback owning chart g1 registers only the
segment dropdown as input, so for a fixed segment its figure is
unchanged under any change of the score range and the priority
selector; and its data subset can differ from the filtered subset
feeding the other charts, since it never applies the score or priority
filters. -/
theorem g1_depends_only_on_segment :
    (∀ (table : List Row) (seg : SegSel) (lo hi : ℚ) (pri : PriSel)
        (lo2 hi2 : ℚ) (pri2 : PriSel),
        g1_output table seg lo hi pri = g1_output table seg lo2 hi2 pri2) ∧
    (∃ (table : List Row) (seg : SegSel) (lo hi : ℚ),
        pie_data table seg ≠ filterStep table seg lo hi PriSel.all) := by
  constructor
  · intro table seg lo hi pri lo2 hi2 pri2
    rfl
  · exact ⟨[rowW], SegSel.all, 1, 0, by decide⟩

end Dashboard
